import Mathlib

/-!
Verification development for the tknz browser-extension background broker.

The embedded code is the background message broker found in the repository
(the onMessage listener with its CONNECT, SIGN_TRANSACTION,
SIGN_ALL_TRANSACTIONS, SIGN_MESSAGE, GET_PUBLIC_KEY, INIT_TOKEN_CREATE and
TKNZ_TOKEN_CLICKED branches, together with the per-request resolver
listeners and the tabs.onRemoved cleanup).  JavaScript objects with
optional fields are embedded as Lean structures with Option fields; a
JS-falsy string field (undefined or empty) is embedded as the empty
string; external effects (storage reads, the token lookup, opening the
popup) are passed in as an explicit environment, and the observable
effects of a handler (the sendResponse reply, storage writes, registry
entries, whether the external lookup ran) are collected in an explicit
result record.
-/

namespace Tknz

/-- A JS reply object with optional fields; the value with every field
absent embeds the empty object literal. -/
structure Reply where
  success : Option Bool := none
  reason : Option String := none
  publicKey : Option String := none
  signedTransaction : Option String := none
  signedTransactions : Option (List String) := none
deriving Repr, DecidableEq

/-- The token payload of a TKNZ_TOKEN_CLICKED message; the empty string
embeds a missing (JS-falsy) field. -/
structure Token where
  address : String := ""
  symbol : String := ""
deriving Repr, DecidableEq

/-- The asset returned by the external searchToken lookup. -/
structure Asset where
  id : String := ""
  usdPrice : Int := 0
  organicScore : Int := 0
deriving Repr, DecidableEq

/-- The options payload of an INIT_TOKEN_CREATE message.  A field is
some s exactly when the JS object carries that field with a string
value s (typeof obj.f is the string type); any other value is none. -/
structure CreateOptions where
  name : Option String := none
  ticker : Option String := none
  imageUrl : Option String := none
  description : Option String := none
deriving Repr, DecidableEq

/-- A stored wallet record as read from chrome.storage.local. -/
structure Wallet where
  id : String := ""
  publicKey : Option String := none
deriving Repr, DecidableEq

/-- A pending entry of the request registry: one resolver listener
registered by the SIGN_TRANSACTION or SIGN_ALL_TRANSACTIONS branch.
kindAll is true for the SIGN_ALL_TRANSACTIONS variant.  active records
whether the listener is still registered; responses collects every
sendResponse call the resolver has made, in order. -/
structure PendingEntry where
  rid : String
  kindAll : Bool := false
  active : Bool := true
  responses : List Reply := []
deriving Repr, DecidableEq

/-- An inbound runtime message, embedding the union of fields the broker
listener reads. -/
structure InMsg where
  type : String := ""
  tabId : Option Nat := none
  requestId : String := ""
  token : Token := {}
  options : Option CreateOptions := none
  transactions : List String := []
  isSidebar : Bool := false
  signedTransaction : Option String := none
  signedTransactions : Option (List String) := none
deriving Repr, DecidableEq

/-- The message sender; tabId embeds sender.tab?.id. -/
structure Sender where
  tabId : Option Nat := none
deriving Repr, DecidableEq

/-- The external environment of one dispatch: storage contents, the
outcome the external token lookup would produce, whether opening the
popup would succeed, and the time and randomness draws used for fresh
request identifiers. -/
structure Env where
  blocklist : Option (List String) := none
  lookup : Except Unit (Option Asset) := Except.ok none
  wallets : List Wallet := []
  activeWalletId : String := ""
  popupOk : Bool := true
  now : Nat := 0
  rand : Nat := 0
deriving Repr

/-- The observable outcome of one dispatch of the broker listener.
returnValue none embeds the listener returning undefined. -/
structure DispatchResult where
  returnValue : Option Bool := none
  response : Option Reply := none
  newEntry : Option PendingEntry := none
  lookupCalled : Bool := false
  lastBuyStored : Option Token := none
  initCoinStored : Option CreateOptions := none
  contentReadyTab : Option Nat := none
  uiMessage : Option String := none
deriving Repr, DecidableEq

/-- Embeds isValidForCoinCreateTrigger from background.ts: the payload is
an object and typeof of at least one of name, ticker, imageUrl,
description is the string type. -/
def isValidForCoinCreateTrigger (o : Option CreateOptions) : Bool :=
  match o with
  | none => false
  | some c =>
      c.name.isSome || c.ticker.isSome || c.imageUrl.isSome || c.description.isSome

/-- Spec-side predicate, following the claim wording for CreateToken
validation: at least one of the fields name, ticker, imageUrl,
description is a non-empty string.  Kept separate from the source-side
isValidForCoinCreateTrigger so the two can be compared. -/
def hasNonemptyStringField (c : CreateOptions) : Bool :=
  c.name.getD "" ≠ "" || c.ticker.getD "" ≠ "" ||
    c.imageUrl.getD "" ≠ "" || c.description.getD "" ≠ ""

/-- Embeds the request-identifier generator
req_(Date.now())_(Math.random()) used by the SIGN_TRANSACTION and
SIGN_ALL_TRANSACTIONS branches. -/
def mkRequestId (now rand : Nat) : String :=
  "req_" ++ toString now ++ "_" ++ toString rand

/-- Numeric value of a decimal digit character, used to read back the
decimal representation underlying a generated request identifier. -/
def digitVal (c : Char) : Nat :=
  c.toNat - '0'.toNat

/-- Tail of the TKNZ_TOKEN_CLICKED handler after validation: store
lastBuyToken, then (outside the sidebar) await openPopup and reply
popup failure, else send SHOW_SWAP and reply success.  The lastBuyToken
write happens before the popup attempt, so it is recorded even when the
popup fails. -/
def tokenClickedProceed (env : Env) (msg : InMsg) (token : Token)
    (lookupCalled : Bool) : DispatchResult :=
  if ¬ msg.isSidebar ∧ ¬ env.popupOk then
    { returnValue := some true, lookupCalled := lookupCalled,
      lastBuyStored := some token,
      response := some { success := some false, reason := some "popup" } }
  else
    { returnValue := some true, lookupCalled := lookupCalled,
      lastBuyStored := some token,
      uiMessage := some "SHOW_SWAP",
      response := some { success := some true } }

/-- Embeds the TKNZ_TOKEN_CLICKED branch of the broker listener
(identical in background.ts and in the SignTxModal-file broker): read the
blocklist, gate on it, then for a symbol-only token run the external
searchToken lookup and validate its result, then proceed. -/
def tknzTokenClicked (env : Env) (msg : InMsg) : DispatchResult :=
  let blocklist := env.blocklist.getD []
  let token := msg.token
  let tokenId := if token.address ≠ "" then token.address else token.symbol
  if blocklist.contains tokenId then
    { returnValue := some true,
      response := some { success := some false, reason := some "blocked" } }
  else if token.address = "" ∧ token.symbol ≠ "" then
    match env.lookup with
    | Except.error _ =>
        { returnValue := some true, lookupCalled := true,
          response := some { success := some false, reason := some "unknown" } }
    | Except.ok none =>
        { returnValue := some true, lookupCalled := true,
          response := some { success := some false, reason := some "unsupported" } }
    | Except.ok (some a) =>
        if a.id = "" then
          { returnValue := some true, lookupCalled := true,
            response := some { success := some false, reason := some "unsupported" } }
        else
          let token := { token with address := a.id }
          if a.usdPrice ≤ 0 ∨ a.organicScore ≤ 0 then
            { returnValue := some true, lookupCalled := true,
              response := some { success := some false, reason := some "unsupported" } }
          else
            tokenClickedProceed env msg token true
  else
    tokenClickedProceed env msg token false

/-- Embeds the CONNECT branch: openPopup is awaited but a failure is only
logged; then the active wallet is looked up and the reply always carries
success true together with the publicKey field of the active wallet,
which is absent when no wallet matches. -/
def connectHandler (env : Env) : DispatchResult :=
  let active := env.wallets.find? (fun w => w.id == env.activeWalletId)
  { returnValue := some true,
    response := some { success := some true,
                       publicKey := active.bind (fun w => w.publicKey) } }

/-- Embeds the GET_PUBLIC_KEY branch: read wallets and activeWalletId and
reply success true with the active publicKey. -/
def getPublicKeyHandler (env : Env) : DispatchResult :=
  let active := env.wallets.find? (fun w => w.id == env.activeWalletId)
  { returnValue := some true,
    response := some { success := some true,
                       publicKey := active.bind (fun w => w.publicKey) } }

/-- Embeds the SIGN_TRANSACTION branch: generate a fresh request
identifier, notify the UI with SHOW_SIGN_TRANSACTION, attempt openPopup
with the failure only logged, register the resolver listener, and return
true with no reply yet. -/
def signTransactionHandler (env : Env) : DispatchResult :=
  { returnValue := some true,
    uiMessage := some "SHOW_SIGN_TRANSACTION",
    newEntry := some { rid := mkRequestId env.now env.rand, kindAll := false } }

/-- Embeds the SIGN_ALL_TRANSACTIONS branch, identical to
SIGN_TRANSACTION except for the message types and payload field. -/
def signAllTransactionsHandler (env : Env) : DispatchResult :=
  { returnValue := some true,
    uiMessage := some "SHOW_SIGN_ALL_TRANSACTIONS",
    newEntry := some { rid := mkRequestId env.now env.rand, kindAll := true } }

/-- Embeds the INIT_TOKEN_CREATE branch: validate the options payload
with isValidForCoinCreateTrigger, rejecting synchronously (return false)
with no stored data and no registry entry on failure; otherwise store
initCoinData, then (outside the sidebar) await openPopup and report its
failure, else send SDK_TOKEN_CREATE and reply success. -/
def initTokenCreateHandler (env : Env) (msg : InMsg) : DispatchResult :=
  if ¬ isValidForCoinCreateTrigger msg.options then
    { returnValue := some false,
      response := some { success := some false,
                         reason := some "Missing or invalid required fields" } }
  else if ¬ msg.isSidebar ∧ ¬ env.popupOk then
    { returnValue := some true, initCoinStored := msg.options,
      response := some { success := some false, reason := some "popup" } }
  else
    { returnValue := some true, initCoinStored := msg.options,
      uiMessage := some "SDK_TOKEN_CREATE",
      response := some { success := some true } }

/-- Embeds the broker onMessage listener: compute the target tab from the
message or the sender, drop the message (returning undefined, with no
reply and no other effect) when that value is JS-falsy, then dispatch on
the message type; unhandled types fall through to return true. -/
def onMessage (env : Env) (msg : InMsg) (sender : Sender) : DispatchResult :=
  let targetTabId := msg.tabId.orElse (fun _ => sender.tabId)
  if targetTabId = none ∨ targetTabId = some 0 then
    {}
  else if msg.type = "PING_ACTIVE_WALLET" then
    {}
  else if msg.type = "CONTENT_SCRIPT_READY" then
    { returnValue := some true, contentReadyTab := targetTabId }
  else if msg.type = "TKNZ_TOKEN_CLICKED" then
    tknzTokenClicked env msg
  else if msg.type = "CONNECT" then
    connectHandler env
  else if msg.type = "SIGN_TRANSACTION" then
    signTransactionHandler env
  else if msg.type = "SIGN_ALL_TRANSACTIONS" then
    signAllTransactionsHandler env
  else if msg.type = "SIGN_MESSAGE" then
    { returnValue := some true, uiMessage := some "SHOW_SIGN_MESSAGE",
      response := some { success := some true } }
  else if msg.type = "GET_PUBLIC_KEY" then
    getPublicKeyHandler env
  else if msg.type = "INIT_TOKEN_CREATE" then
    initTokenCreateHandler env msg
  else
    { returnValue := some true }

/-- The runtime message type a resolver of the given kind matches for a
confirmation. -/
def confirmType (kindAll : Bool) : String :=
  if kindAll then "SIGN_ALL_TRANSACTIONS_CONFIRMED" else "SIGN_TRANSACTION_CONFIRMED"

/-- The runtime message type a resolver of the given kind matches for a
rejection. -/
def rejectType (kindAll : Bool) : String :=
  if kindAll then "SIGN_ALL_TRANSACTIONS_REJECTED" else "SIGN_TRANSACTION_REJECTED"

/-- The reply a resolver sends on confirmation: the SIGN_TRANSACTION
resolver forwards the signedTransaction field of the resolution message,
the SIGN_ALL_TRANSACTIONS resolver the signedTransactions field. -/
def confirmReply (kindAll : Bool) (m : InMsg) : Reply :=
  if kindAll then { signedTransactions := m.signedTransactions }
  else { signedTransaction := m.signedTransaction }

/-- Embeds one invocation of a registered resolver listener on a runtime
message.  A removed listener (active false) is no longer invoked.  As in
the source, the confirmation test and the rejection test are two
sequential if statements: each matching branch sends its reply and
removes the listener. -/
def resolverStep (e : PendingEntry) (m : InMsg) : PendingEntry :=
  if ¬ e.active then e
  else
    let e1 :=
      if m.type = confirmType e.kindAll ∧ m.requestId = e.rid then
        { e with active := false,
                 responses := e.responses ++ [confirmReply e.kindAll m] }
      else e
    if m.type = rejectType e1.kindAll ∧ m.requestId = e1.rid then
      { e1 with active := false, responses := e1.responses ++ [({} : Reply)] }
    else e1

/-- Runs a resolver over a whole sequence of runtime messages delivered
to the broker context, in order. -/
def resolverRun (e : PendingEntry) (msgs : List InMsg) : PendingEntry :=
  msgs.foldl resolverStep e

/-- The registry of pending resolvers is the list of listeners currently
added on the broker runtime; delivering a message invokes every one of
them. -/
def deliver (st : List PendingEntry) (m : InMsg) : List PendingEntry :=
  st.map (fun e => resolverStep e m)

/-- The broker background state: the per-tab content-script-ready flags
and the pending resolver listeners. -/
structure BrokerState where
  contentScriptStatus : List Nat := []
  pending : List PendingEntry := []
deriving Repr, DecidableEq

/-- Folds the observable effects of one dispatch into the broker state:
a CONTENT_SCRIPT_READY dispatch marks its tab, a sign branch appends its
registered resolver. -/
def applyDispatch (st : BrokerState) (r : DispatchResult) : BrokerState :=
  { st with
    contentScriptStatus :=
      match r.contentReadyTab with
      | none => st.contentScriptStatus
      | some t => insert t st.contentScriptStatus,
    pending :=
      match r.newEntry with
      | none => st.pending
      | some e => st.pending ++ [e] }

/-- Embeds the chrome.tabs.onRemoved listener: it only deletes the
content-script status entry of the closed tab. -/
def tabRemoved (st : BrokerState) (tabId : Nat) : BrokerState :=
  { st with contentScriptStatus := st.contentScriptStatus.erase tabId }

/-- A runtime message is a resolution for a pending entry when its type
is the matching confirmation or rejection type and it carries the
request identifier of the entry. -/
def IsResolutionFor (e : PendingEntry) (m : InMsg) : Prop :=
  (m.type = confirmType e.kindAll ∨ m.type = rejectType e.kindAll) ∧
    m.requestId = e.rid

instance (e : PendingEntry) (m : InMsg) : Decidable (IsResolutionFor e m) := by
  unfold IsResolutionFor; infer_instance

/-- The confirmation and rejection message types never coincide. -/
lemma confirmType_ne_rejectType (k : Bool) : confirmType k ≠ rejectType k := by
  cases k <;> decide

/-- A removed resolver is not invoked again. -/
lemma resolverStep_inactive (e : PendingEntry) (m : InMsg)
    (h : e.active = false) : resolverStep e m = e := by
  simp [resolverStep, h]

/-- A message that is not a resolution for the entry leaves the resolver
unchanged. -/
lemma resolverStep_not_matching (e : PendingEntry) (m : InMsg)
    (h : ¬ IsResolutionFor e m) : resolverStep e m = e := by
  have h1 : ¬ (m.type = confirmType e.kindAll ∧ m.requestId = e.rid) :=
    fun hc => h ⟨Or.inl hc.1, hc.2⟩
  have h2 : ¬ (m.type = rejectType e.kindAll ∧ m.requestId = e.rid) :=
    fun hc => h ⟨Or.inr hc.1, hc.2⟩
  by_cases ha : e.active
  · simp [resolverStep, ha, h1, h2]
  · simp [resolverStep, ha]

/-- Delivering a resolution to a live resolver sends exactly one reply
and removes the listener. -/
lemma resolverStep_matching (e : PendingEntry) (m : InMsg)
    (ha : e.active = true) (h : IsResolutionFor e m) :
    ∃ r, resolverStep e m =
      { e with active := false, responses := e.responses ++ [r] } := by
  have hcr : confirmType e.kindAll ≠ rejectType e.kindAll :=
    confirmType_ne_rejectType e.kindAll
  have hrc : rejectType e.kindAll ≠ confirmType e.kindAll := hcr.symm
  obtain ⟨hty | hty, hrid⟩ := h
  · refine ⟨confirmReply e.kindAll m, ?_⟩
    simp [resolverStep, ha, hty, hrid, hcr]
  · refine ⟨({} : Reply), ?_⟩
    simp [resolverStep, ha, hty, hrid, hrc]

/-- An already-removed resolver ignores every further message. -/
lemma resolverRun_inactive (msgs : List InMsg) (e : PendingEntry)
    (h : e.active = false) : resolverRun e msgs = e := by
  induction msgs with
  | nil => rfl
  | cons m rest ih =>
      show resolverRun (resolverStep e m) rest = e
      rw [resolverStep_inactive e m h]
      exact ih

/-- Running a live resolver over a message sequence either leaves it
untouched (no resolution for it was delivered) or ends with the listener
removed and exactly one additional reply sent (a resolution was
delivered). -/
lemma resolverRun_cases (msgs : List InMsg) (e : PendingEntry)
    (ha : e.active = true) :
    (resolverRun e msgs = e ∧ ¬ ∃ m ∈ msgs, IsResolutionFor e m) ∨
    ((resolverRun e msgs).active = false ∧
      (resolverRun e msgs).responses.length = e.responses.length + 1 ∧
      ∃ m ∈ msgs, IsResolutionFor e m) := by
  induction msgs generalizing e with
  | nil => exact Or.inl ⟨rfl, by simp⟩
  | cons m rest ih =>
      by_cases hm : IsResolutionFor e m
      · obtain ⟨r, hstep⟩ := resolverStep_matching e m ha hm
        refine Or.inr ?_
        have hrun : resolverRun e (m :: rest) =
            { e with active := false, responses := e.responses ++ [r] } := by
          show resolverRun (resolverStep e m) rest = _
          rw [hstep]
          exact resolverRun_inactive rest _ rfl
        rw [hrun]
        exact ⟨rfl, by simp, ⟨m, by simp, hm⟩⟩
      · have hstep : resolverStep e m = e := resolverStep_not_matching e m hm
        have hrun : resolverRun e (m :: rest) = resolverRun e rest := by
          show resolverRun (resolverStep e m) rest = _
          rw [hstep]
        rw [hrun]
        rcases ih e ha with ⟨heq, hno⟩ | ⟨hact, hlen, hex⟩
        · refine Or.inl ⟨heq, ?_⟩
          rintro ⟨m2, hmem, hres⟩
          rcases List.mem_cons.mp hmem with rfl | hmem2
          · exact hm hres
          · exact hno ⟨m2, hmem2, hres⟩
        · exact Or.inr ⟨hact, hlen, hex.imp (fun m2 h2 => ⟨List.mem_cons_of_mem m h2.1, h2.2⟩)⟩

/-- Claim C1: resolution delivery is idempotent per request identifier.
For a registered SIGN_TRANSACTION or SIGN_ALL_TRANSACTIONS resolver that
has not yet replied, any delivered message sequence containing at least
one Confirmed or Rejected resolution for its request identifier makes
the stored sendResponse callback fire exactly once; every late or
duplicate resolution after the first is ignored because the listener is
removed on first resolution. -/
theorem sign_resolution_idempotent (e : PendingEntry) (msgs : List InMsg)
    (ha : e.active = true) (hr : e.responses = [])
    (hm : ∃ m ∈ msgs, IsResolutionFor e m) :
    (resolverRun e msgs).responses.length = 1 := by
  rcases resolverRun_cases msgs e ha with ⟨_, hno⟩ | ⟨_, hlen, _⟩
  · exact absurd hm hno
  · rw [hlen, hr]
    rfl

/-- Witness for C1: a fresh SIGN_TRANSACTION resolver receiving the same
Confirmed resolution twice replies exactly once. -/
theorem sign_resolution_idempotent_witness :
    (resolverRun { rid := "req_1_2" }
      [{ type := "SIGN_TRANSACTION_CONFIRMED", requestId := "req_1_2",
         signedTransaction := some "sig" },
       { type := "SIGN_TRANSACTION_CONFIRMED", requestId := "req_1_2",
         signedTransaction := some "sig" }]).responses.length = 1 :=
  sign_resolution_idempotent { rid := "req_1_2" }
    [{ type := "SIGN_TRANSACTION_CONFIRMED", requestId := "req_1_2",
       signedTransaction := some "sig" },
     { type := "SIGN_TRANSACTION_CONFIRMED", requestId := "req_1_2",
       signedTransaction := some "sig" }]
    rfl rfl
    ⟨{ type := "SIGN_TRANSACTION_CONFIRMED", requestId := "req_1_2",
       signedTransaction := some "sig" }, by decide⟩

/-- Claim C8: the reply to the original caller carries the signed payload
on a Confirmed resolution ({ signedTransaction } for SIGN_TRANSACTION,
{ signedTransactions } for SIGN_ALL_TRANSACTIONS) and is exactly the
empty object on a Rejected resolution, for any registered unanswered
resolver. -/
theorem sign_reply_shape (e : PendingEntry) (m : InMsg)
    (ha : e.active = true) (hr : e.responses = [])
    (hrid : m.requestId = e.rid) :
    (e.kindAll = false → m.type = "SIGN_TRANSACTION_CONFIRMED" →
      (resolverStep e m).responses =
        [{ signedTransaction := m.signedTransaction }]) ∧
    (e.kindAll = true → m.type = "SIGN_ALL_TRANSACTIONS_CONFIRMED" →
      (resolverStep e m).responses =
        [{ signedTransactions := m.signedTransactions }]) ∧
    (m.type = rejectType e.kindAll →
      (resolverStep e m).responses = [({} : Reply)]) := by
  refine ⟨?_, ?_, ?_⟩
  · intro hk hty
    simp [resolverStep, confirmType, rejectType, confirmReply, ha, hr, hrid, hk, hty]
  · intro hk hty
    simp [resolverStep, confirmType, rejectType, confirmReply, ha, hr, hrid, hk, hty]
  · intro hty
    have hrc : rejectType e.kindAll ≠ confirmType e.kindAll :=
      (confirmType_ne_rejectType e.kindAll).symm
    simp [resolverStep, ha, hr, hrid, hty, hrc]

/-- Witness for C8: a concrete Rejected resolution yields exactly the
empty object as the reply. -/
theorem sign_reply_shape_witness :
    (resolverStep { rid := "req_3_4" }
      { type := "SIGN_TRANSACTION_REJECTED", requestId := "req_3_4" }).responses =
      [({} : Reply)] :=
  (sign_reply_shape { rid := "req_3_4" }
    { type := "SIGN_TRANSACTION_REJECTED", requestId := "req_3_4" }
    rfl rfl rfl).2.2 rfl

/-- Accumulator lemma for the decimal printer underlying toString. -/
lemma toDigitsCore_append (fuel : Nat) : ∀ (n : Nat) (ds : List Char),
    Nat.toDigitsCore 10 fuel n ds = Nat.toDigitsCore 10 fuel n [] ++ ds := by
  induction fuel with
  | zero => intro n ds; rfl
  | succ fuel ih =>
      intro n ds
      by_cases h : n / 10 = 0
      · simp [Nat.toDigitsCore, h]
      · simp only [Nat.toDigitsCore, h, if_false]
        rw [ih (n / 10) (Nat.digitChar (n % 10) :: ds),
          ih (n / 10) [Nat.digitChar (n % 10)], List.append_assoc]
        rfl

/-- The decimal printer does not depend on its fuel, as long as the fuel
exceeds the number being printed. -/
lemma toDigitsCore_fuel_irrelevant : ∀ (n f1 f2 : Nat), n < f1 → n < f2 →
    Nat.toDigitsCore 10 f1 n [] = Nat.toDigitsCore 10 f2 n [] := by
  intro n
  induction n using Nat.strong_induction_on with
  | _ n ih =>
      intro f1 f2 h1 h2
      match f1, f2, h1, h2 with
      | g1 + 1, g2 + 1, h1, h2 =>
        by_cases h : n / 10 = 0
        · simp [Nat.toDigitsCore, h]
        · have hlt : n / 10 < n := Nat.div_lt_self (Nat.pos_of_ne_zero
            (fun hz => h (by simp [hz]))) (by decide)
          simp only [Nat.toDigitsCore, h, if_false]
          rw [toDigitsCore_append g1, toDigitsCore_append g2,
            ih (n / 10) hlt g1 g2 (Nat.lt_of_lt_of_le hlt (Nat.lt_succ_iff.mp h1))
              (Nat.lt_of_lt_of_le hlt (Nat.lt_succ_iff.mp h2))]

/-- Structural recurrence for the decimal digit list of a number. -/
lemma toDigits_recurrence (n : Nat) :
    Nat.toDigits 10 n =
      (if n < 10 then [Nat.digitChar n]
       else Nat.toDigits 10 (n / 10) ++ [Nat.digitChar (n % 10)]) := by
  by_cases h : n < 10
  · have hd : n / 10 = 0 := Nat.div_eq_of_lt h
    have hm : n % 10 = n := Nat.mod_eq_of_lt h
    simp [Nat.toDigits, Nat.toDigitsCore, hd, hm, h]
  · have hd : n / 10 ≠ 0 := by
      intro hz
      exact h (by omega)
    have hlt : n / 10 < n :=
      Nat.div_lt_self (Nat.pos_of_ne_zero (fun hz => hd (by simp [hz]))) (by decide)
    simp only [h, if_false]
    show Nat.toDigitsCore 10 (n + 1) n [] = _
    simp only [Nat.toDigitsCore, hd, if_false]
    rw [toDigitsCore_append n (n / 10),
      toDigitsCore_fuel_irrelevant (n / 10) n (n / 10 + 1) hlt (Nat.lt_succ_self _)]
    rfl

/-- Reading a digit character back gives the digit. -/
lemma digitVal_digitChar (m : Nat) (h : m < 10) :
    digitVal (Nat.digitChar m) = m := by
  interval_cases m <;> rfl

/-- Digit characters of decimal digits are never the underscore
separator used by mkRequestId. -/
lemma digitChar_ne_underscore (m : Nat) (h : m < 10) :
    Nat.digitChar m ≠ '_' := by
  interval_cases m <;> decide

/-- The underscore separator never occurs in a decimal digit list. -/
lemma underscore_not_in_toDigits (n : Nat) : '_' ∉ Nat.toDigits 10 n := by
  induction n using Nat.strong_induction_on with
  | _ n ih =>
      rw [toDigits_recurrence n]
      by_cases h : n < 10
      · simp [h, (digitChar_ne_underscore n h).symm]
      · have hlt : n / 10 < n := Nat.div_lt_self
          (Nat.pos_of_ne_zero (by omega)) (by decide)
        simp only [h, if_false, List.mem_append, List.mem_singleton]
        rintro (hmem | hmem)
        · exact ih (n / 10) hlt hmem
        · exact digitChar_ne_underscore (n % 10) (Nat.mod_lt n (by decide)) hmem.symm

/-- Folding the decimal digit list of n onto an accumulator recovers n
shifted below the accumulator. -/
lemma foldl_toDigits (n : Nat) : ∀ a : Nat,
    List.foldl (fun x c => 10 * x + digitVal c) a (Nat.toDigits 10 n) =
      a * 10 ^ (Nat.toDigits 10 n).length + n := by
  induction n using Nat.strong_induction_on with
  | _ n ih =>
      intro a
      rw [toDigits_recurrence n]
      by_cases h : n < 10
      · simp [h, digitVal_digitChar n h]
        ring
      · have hlt : n / 10 < n := Nat.div_lt_self
          (Nat.pos_of_ne_zero (by omega)) (by decide)
        simp only [h, if_false, List.foldl_append, List.foldl_cons, List.foldl_nil,
          List.length_append, List.length_singleton]
        rw [ih (n / 10) hlt a, digitVal_digitChar (n % 10) (Nat.mod_lt n (by decide))]
        have e : a * 10 ^ ((Nat.toDigits 10 (n / 10)).length + 1) =
            10 * (a * 10 ^ (Nat.toDigits 10 (n / 10)).length) := by
          rw [pow_succ]
          ring
        omega

/-- The decimal digit list determines the number. -/
lemma toDigits_injective (n1 n2 : Nat)
    (h : Nat.toDigits 10 n1 = Nat.toDigits 10 n2) : n1 = n2 := by
  have h1 := foldl_toDigits n1 0
  have h2 := foldl_toDigits n2 0
  rw [h] at h1
  rw [h1] at h2
  simpa using h2

/-- Splitting at a separator character absent from both prefixes is
unambiguous. -/
lemma append_separator_injective (c : Char) :
    ∀ (l1 l2 r1 r2 : List Char), c ∉ l1 → c ∉ l2 →
      l1 ++ c :: r1 = l2 ++ c :: r2 → l1 = l2 ∧ r1 = r2 := by
  intro l1
  induction l1 with
  | nil =>
      intro l2 r1 r2 _ hc2 h
      match l2 with
      | [] => simpa using h
      | x :: xs =>
          simp only [List.nil_append, List.cons_append, List.cons.injEq] at h
          exact absurd (List.mem_cons_self x xs) (h.1 ▸ hc2)
  | cons x xs ih =>
      intro l2 r1 r2 hc1 hc2 h
      match l2 with
      | [] =>
          simp only [List.cons_append, List.nil_append, List.cons.injEq] at h
          exact absurd (List.mem_cons_self x xs) (h.1.symm ▸ hc1)
      | y :: ys =>
          simp only [List.cons_append, List.cons.injEq] at h
          obtain ⟨hxy, htail⟩ := h
          obtain ⟨hl, hr⟩ := ih ys r1 r2
            (fun hm => hc1 (List.mem_cons_of_mem x hm))
            (fun hm => hc2 (hxy ▸ List.mem_cons_of_mem y hm)) htail
          exact ⟨by rw [hxy, hl], hr⟩

/-- The request-identifier generator is injective: distinct time and
randomness draws always yield distinct identifiers. -/
lemma mkRequestId_injective (n1 r1 n2 r2 : Nat)
    (h : mkRequestId n1 r1 = mkRequestId n2 r2) : n1 = n2 ∧ r1 = r2 := by
  have hsplit : ∀ m r : Nat, (mkRequestId m r).data =
      "req_".data ++ (Nat.toDigits 10 m ++ '_' :: Nat.toDigits 10 r) := by
    intro m r
    have e1 : (mkRequestId m r).data =
        (("req_".data ++ Nat.toDigits 10 m) ++ "_".data) ++ Nat.toDigits 10 r := by
      simp only [mkRequestId, String.data_append]
      rfl
    rw [e1, List.append_assoc, List.append_assoc]
    rfl
  have hlist := congrArg String.data h
  rw [hsplit n1 r1, hsplit n2 r2] at hlist
  have hd := List.append_cancel_left hlist
  obtain ⟨hn, hr⟩ := append_separator_injective '_'
    (Nat.toDigits 10 n1) (Nat.toDigits 10 n2)
    (Nat.toDigits 10 r1) (Nat.toDigits 10 r2)
    (underscore_not_in_toDigits n1) (underscore_not_in_toDigits n2) hd
  exact ⟨toDigits_injective n1 n2 hn, toDigits_injective r1 r2 hr⟩

/-- Claim C2: two concurrent SIGN_TRANSACTION dispatches with distinct
fresh time and randomness draws receive distinct request identifiers
and two independent pending entries; delivering a Confirmed resolution
for the first identifier replies only to the first entry and leaves the
second entry active, unanswered and still resolvable by its own
resolution. -/
theorem pending_requests_independent (n1 r1 n2 r2 : Nat) (s1 s2 : String)
    (env1 env2 : Env)
    (h1 : env1.now = n1 ∧ env1.rand = r1) (h2 : env2.now = n2 ∧ env2.rand = r2)
    (hne : (n1, r1) ≠ (n2, r2)) :
    mkRequestId n1 r1 ≠ mkRequestId n2 r2 ∧
    (applyDispatch
      (applyDispatch {}
        (onMessage env1 { type := "SIGN_TRANSACTION", tabId := some 1 } {}))
      (onMessage env2 { type := "SIGN_TRANSACTION", tabId := some 1 } {})).pending =
      [{ rid := mkRequestId n1 r1 }, { rid := mkRequestId n2 r2 }] ∧
    deliver [{ rid := mkRequestId n1 r1 }, { rid := mkRequestId n2 r2 }]
      { type := "SIGN_TRANSACTION_CONFIRMED", requestId := mkRequestId n1 r1,
        signedTransaction := some s1 } =
      [{ rid := mkRequestId n1 r1, active := false,
         responses := [{ signedTransaction := some s1 }] },
       { rid := mkRequestId n2 r2 }] ∧
    deliver
      [{ rid := mkRequestId n1 r1, active := false,
         responses := [{ signedTransaction := some s1 }] },
       { rid := mkRequestId n2 r2 }]
      { type := "SIGN_TRANSACTION_CONFIRMED", requestId := mkRequestId n2 r2,
        signedTransaction := some s2 } =
      [{ rid := mkRequestId n1 r1, active := false,
         responses := [{ signedTransaction := some s1 }] },
       { rid := mkRequestId n2 r2, active := false,
         responses := [{ signedTransaction := some s2 }] }] := by
  obtain ⟨hn1, hr1⟩ := h1
  obtain ⟨hn2, hr2⟩ := h2
  have hrid : mkRequestId n1 r1 ≠ mkRequestId n2 r2 := by
    intro hEq
    obtain ⟨ha, hb⟩ := mkRequestId_injective n1 r1 n2 r2 hEq
    exact hne (by rw [ha, hb])
  refine ⟨hrid, ?_, ?_, ?_⟩
  · simp [onMessage, signTransactionHandler, applyDispatch, hn1, hr1, hn2, hr2]
  · simp [deliver, resolverStep, confirmType, rejectType, confirmReply, hrid,
      Ne.symm hrid]
  · simp [deliver, resolverStep, confirmType, rejectType, confirmReply, hrid,
      Ne.symm hrid]

/-- Witness for C2: concrete draws 1, 2 and 3, 4 give distinct
identifiers, independent entries and one-sided resolution. -/
theorem pending_requests_independent_witness :
    mkRequestId 1 2 ≠ mkRequestId 3 4 ∧
    (applyDispatch
      (applyDispatch {}
        (onMessage { now := 1, rand := 2 }
          { type := "SIGN_TRANSACTION", tabId := some 1 } {}))
      (onMessage { now := 3, rand := 4 }
        { type := "SIGN_TRANSACTION", tabId := some 1 } {})).pending =
      [{ rid := mkRequestId 1 2 }, { rid := mkRequestId 3 4 }] ∧
    deliver [{ rid := mkRequestId 1 2 }, { rid := mkRequestId 3 4 }]
      { type := "SIGN_TRANSACTION_CONFIRMED", requestId := mkRequestId 1 2,
        signedTransaction := some "sigA" } =
      [{ rid := mkRequestId 1 2, active := false,
         responses := [{ signedTransaction := some "sigA" }] },
       { rid := mkRequestId 3 4 }] ∧
    deliver
      [{ rid := mkRequestId 1 2, active := false,
         responses := [{ signedTransaction := some "sigA" }] },
       { rid := mkRequestId 3 4 }]
      { type := "SIGN_TRANSACTION_CONFIRMED", requestId := mkRequestId 3 4,
        signedTransaction := some "sigB" } =
      [{ rid := mkRequestId 1 2, active := false,
         responses := [{ signedTransaction := some "sigA" }] },
       { rid := mkRequestId 3 4, active := false,
         responses := [{ signedTransaction := some "sigB" }] }] :=
  pending_requests_independent 1 2 3 4 "sigA" "sigB"
    { now := 1, rand := 2 } { now := 3, rand := 4 }
    ⟨rfl, rfl⟩ ⟨rfl, rfl⟩ (by decide)

/-- Claim C9: an inbound message carrying no tabId whose sender has no
tab is dropped by the listener before any type dispatch: the result is
the empty outcome (return value undefined, no reply, no effect),
whatever the message type and environment. -/
theorem no_tab_message_dropped (env : Env) (msg : InMsg) (sender : Sender)
    (ht : msg.tabId = none) (hs : sender.tabId = none) :
    onMessage env msg sender = {} := by
  simp [onMessage, ht, hs, Option.orElse]

/-- Witness for C9: a concrete SIGN_TRANSACTION message with no tab is
dropped with no reply. -/
theorem no_tab_message_dropped_witness :
    onMessage {} { type := "SIGN_TRANSACTION" } {} = {} :=
  no_tab_message_dropped {} { type := "SIGN_TRANSACTION" } {} rfl rfl

/-- Claim C10: CONNECT and GET_PUBLIC_KEY always reply success true;
when the active wallet id matches no stored wallet (in particular when
no wallet is configured) the reply is success true with the publicKey
field absent, not an error. -/
theorem connect_success_without_wallet (env : Env) (msg : InMsg)
    (sender : Sender) (t : Nat)
    (ht : msg.tabId = some t) (htz : t ≠ 0)
    (hty : msg.type = "CONNECT" ∨ msg.type = "GET_PUBLIC_KEY")
    (hw : env.wallets.find? (fun w => w.id == env.activeWalletId) = none) :
    (onMessage env msg sender).response = some { success := some true } := by
  rcases hty with hty | hty
  · simp [onMessage, connectHandler, ht, htz, hty, hw]
  · simp [onMessage, getPublicKeyHandler, ht, htz, hty, hw]

/-- Witness for C10: with no wallets stored, CONNECT replies success
true with no publicKey. -/
theorem connect_success_without_wallet_witness :
    (onMessage {} { type := "CONNECT", tabId := some 1 } {}).response =
      some { success := some true } :=
  connect_success_without_wallet {} { type := "CONNECT", tabId := some 1 } {} 1
    rfl (by decide) (Or.inl rfl) rfl

/-- Claim C3: a TKNZ_TOKEN_CLICKED request whose token identifier (the
address, or the symbol when no address is given) is in the stored
blocklist is answered success false with reason blocked, and the
external token lookup is never called. -/
theorem blocklist_precedes_lookup (env : Env) (msg : InMsg)
    (sender : Sender) (t : Nat)
    (ht : msg.tabId = some t) (htz : t ≠ 0)
    (hty : msg.type = "TKNZ_TOKEN_CLICKED")
    (hb : (env.blocklist.getD []).contains
      (if msg.token.address ≠ "" then msg.token.address else msg.token.symbol) = true) :
    (onMessage env msg sender).response =
      some { success := some false, reason := some "blocked" } ∧
    (onMessage env msg sender).lookupCalled = false ∧
    (onMessage env msg sender).lastBuyStored = none := by
  simp at hb
  refine ⟨?_, ?_, ?_⟩ <;> simp [onMessage, tknzTokenClicked, ht, htz, hty, hb]

/-- Witness for C3: a blocklisted address is rejected as blocked with no
lookup and nothing persisted. -/
theorem blocklist_precedes_lookup_witness :
    (onMessage { blocklist := some ["Mint1"] }
      { type := "TKNZ_TOKEN_CLICKED", tabId := some 1,
        token := { address := "Mint1" } } {}).response =
      some { success := some false, reason := some "blocked" } ∧
    (onMessage { blocklist := some ["Mint1"] }
      { type := "TKNZ_TOKEN_CLICKED", tabId := some 1,
        token := { address := "Mint1" } } {}).lookupCalled = false ∧
    (onMessage { blocklist := some ["Mint1"] }
      { type := "TKNZ_TOKEN_CLICKED", tabId := some 1,
        token := { address := "Mint1" } } {}).lastBuyStored = none :=
  blocklist_precedes_lookup { blocklist := some ["Mint1"] }
    { type := "TKNZ_TOKEN_CLICKED", tabId := some 1,
      token := { address := "Mint1" } } {} 1
    rfl (by decide) rfl (by decide)

/-- Counterexample to C5: for a symbol-only token whose external lookup
throws, the reply reason is unknown, not unsupported as the claim
states. -/
theorem symbol_lookup_failure_counterexample :
    (onMessage { lookup := Except.error () }
      { type := "TKNZ_TOKEN_CLICKED", tabId := some 1,
        token := { symbol := "FOO" } } {}).response =
      some { success := some false, reason := some "unknown" } ∧
    (onMessage { lookup := Except.error () }
      { type := "TKNZ_TOKEN_CLICKED", tabId := some 1,
        token := { symbol := "FOO" } } {}).response ≠
      some { success := some false, reason := some "unsupported" } := by
  constructor <;> decide

/-- Claim C5 as amended: for a symbol-only, non-blocklisted
TKNZ_TOKEN_CLICKED request, a lookup returning no matching asset, an
asset with a falsy id, or an asset with non-positive usdPrice or
organicScore yields the reply success false with reason unsupported,
while a lookup that throws yields reason unknown; in every one of these
failure cases no lastBuyToken is persisted. -/
theorem symbol_lookup_failure_rejected (env : Env) (msg : InMsg)
    (sender : Sender) (t : Nat)
    (ht : msg.tabId = some t) (htz : t ≠ 0)
    (hty : msg.type = "TKNZ_TOKEN_CLICKED")
    (hb : (if msg.token.address = "" then msg.token.symbol
            else msg.token.address) ∉ env.blocklist.getD [])
    (haddr : msg.token.address = "") (hsym : msg.token.symbol ≠ "") :
    (env.lookup = Except.error () →
      (onMessage env msg sender).response =
        some { success := some false, reason := some "unknown" } ∧
      (onMessage env msg sender).lastBuyStored = none) ∧
    (env.lookup = Except.ok none →
      (onMessage env msg sender).response =
        some { success := some false, reason := some "unsupported" } ∧
      (onMessage env msg sender).lastBuyStored = none) ∧
    (∀ a : Asset, env.lookup = Except.ok (some a) →
      (a.id = "" ∨ (a.id ≠ "" ∧ (a.usdPrice ≤ 0 ∨ a.organicScore ≤ 0))) →
      (onMessage env msg sender).response =
        some { success := some false, reason := some "unsupported" } ∧
      (onMessage env msg sender).lastBuyStored = none) := by
  have hb2 : msg.token.symbol ∉ env.blocklist.getD [] := by
    simpa [haddr] using hb
  refine ⟨?_, ?_, ?_⟩
  · intro hl
    constructor <;>
      simp [onMessage, tknzTokenClicked, ht, htz, hty, hb2, haddr, hsym, hl]
  · intro hl
    constructor <;>
      simp [onMessage, tknzTokenClicked, ht, htz, hty, hb2, haddr, hsym, hl]
  · rintro a hl (hid | ⟨hid, hbad⟩)
    · constructor <;>
        simp [onMessage, tknzTokenClicked, ht, htz, hty, hb2, haddr, hsym, hl, hid]
    · constructor <;>
        simp [onMessage, tknzTokenClicked, ht, htz, hty, hb2, haddr, hsym, hl,
          hid, hbad]

/-- Witness for C5 as amended: a lookup result with non-positive
usdPrice is rejected as unsupported and nothing is persisted. -/
theorem symbol_lookup_failure_rejected_witness :
    (onMessage { lookup := Except.ok (some { id := "MintX", usdPrice := 0, organicScore := 5 }) }
      { type := "TKNZ_TOKEN_CLICKED", tabId := some 1,
        token := { symbol := "FOO" } } {}).response =
      some { success := some false, reason := some "unsupported" } ∧
    (onMessage { lookup := Except.ok (some { id := "MintX", usdPrice := 0, organicScore := 5 }) }
      { type := "TKNZ_TOKEN_CLICKED", tabId := some 1,
        token := { symbol := "FOO" } } {}).lastBuyStored = none :=
  (symbol_lookup_failure_rejected
    { lookup := Except.ok (some { id := "MintX", usdPrice := 0, organicScore := 5 }) }
    { type := "TKNZ_TOKEN_CLICKED", tabId := some 1,
      token := { symbol := "FOO" } } {} 1
    rfl (by decide) rfl (by decide) rfl (by decide)).2.2
    { id := "MintX", usdPrice := 0, organicScore := 5 } rfl
    (Or.inr ⟨by decide, Or.inl (by decide)⟩)

/-- Counterexample to C4: the payload whose only field is the empty
string name is accepted by isValidForCoinCreateTrigger and by the
INIT_TOKEN_CREATE dispatch, although none of its fields is a non-empty
string. -/
theorem coin_create_empty_string_counterexample :
    isValidForCoinCreateTrigger (some { name := some "" }) = true ∧
    hasNonemptyStringField { name := some "" } = false ∧
    (onMessage {} { type := "INIT_TOKEN_CREATE", tabId := some 1,
                    options := some { name := some "" } } {}).response =
      some { success := some true } := by
  refine ⟨rfl, rfl, ?_⟩
  decide

/-- Claim C4 as amended: an INIT_TOKEN_CREATE payload is accepted iff at
least one of name, ticker, imageUrl, description is present with a
string value, empty strings included; a payload with none of these
fields is rejected synchronously (listener returns false) with the
invalid-payload reply and no stored data and no registry entry, while a
payload with only name Foo is accepted. -/
theorem coin_create_loose_validation (env : Env) (msg : InMsg)
    (sender : Sender) (t : Nat)
    (ht : msg.tabId = some t) (htz : t ≠ 0)
    (hty : msg.type = "INIT_TOKEN_CREATE") :
    (∀ o : Option CreateOptions, isValidForCoinCreateTrigger o = true ↔
      ∃ c, o = some c ∧ (c.name.isSome ∨ c.ticker.isSome ∨
        c.imageUrl.isSome ∨ c.description.isSome)) ∧
    (isValidForCoinCreateTrigger msg.options = false →
      onMessage env msg sender =
        { returnValue := some false,
          response := some { success := some false,
                             reason := some "Missing or invalid required fields" } }) ∧
    (msg.options = some { name := some "Foo" } → env.popupOk = true →
      (onMessage env msg sender).response = some { success := some true } ∧
      (onMessage env msg sender).initCoinStored =
        some { name := some "Foo" }) := by
  refine ⟨?_, ?_, ?_⟩
  · intro o
    match o with
    | none => simp [isValidForCoinCreateTrigger]
    | some c =>
        simp [isValidForCoinCreateTrigger, Option.isSome_iff_exists, or_assoc]
  · intro hv
    simp [onMessage, initTokenCreateHandler, ht, htz, hty, hv]
  · intro ho hp
    constructor <;>
      simp [onMessage, initTokenCreateHandler, isValidForCoinCreateTrigger,
        ht, htz, hty, ho, hp]

/-- Witness for C4 as amended: the empty payload is rejected
synchronously with the invalid-payload reply and no effect, and the
payload with only name Foo is accepted. -/
theorem coin_create_loose_validation_witness :
    (isValidForCoinCreateTrigger (some {}) = false →
      onMessage {} { type := "INIT_TOKEN_CREATE", tabId := some 1 } {} =
        { returnValue := some false,
          response := some { success := some false,
                             reason := some "Missing or invalid required fields" } }) ∧
    (isValidForCoinCreateTrigger (some {}) = false) ∧
    ((onMessage {}
        { type := "INIT_TOKEN_CREATE", tabId := some 1,
          options := some { name := some "Foo" } } {}).response =
      some { success := some true }) := by
  refine ⟨?_, rfl, ?_⟩
  · intro _
    exact (coin_create_loose_validation {}
      { type := "INIT_TOKEN_CREATE", tabId := some 1 } {} 1
      rfl (by decide) rfl).2.1 rfl
  · exact ((coin_create_loose_validation {}
      { type := "INIT_TOKEN_CREATE", tabId := some 1,
        options := some { name := some "Foo" } } {} 1
      rfl (by decide) rfl).2.2 rfl rfl).1

/-- Counterexample to C6: when opening the popup fails, a CONNECT caller
still receives the plain success reply rather than a
presentation-unavailable error, and a SIGN_TRANSACTION caller receives
no reply at all: for these kinds the failure is only logged. -/
theorem popup_failure_swallowed_counterexample :
    (onMessage { popupOk := false }
      { type := "CONNECT", tabId := some 1 } {}).response =
      some { success := some true } ∧
    (onMessage { popupOk := false }
      { type := "SIGN_TRANSACTION", tabId := some 1 } {}).response = none := by
  constructor <;> decide

/-- Claim C6 as amended: a popup-open failure is reported to the caller
as the reason-popup error only for INIT_TOKEN_CREATE and
TKNZ_TOKEN_CLICKED dispatches outside the sidebar; for CONNECT,
SIGN_TRANSACTION and SIGN_ALL_TRANSACTIONS the failure is only logged:
the dispatch outcome does not depend on it, CONNECT still replies
success and the sign kinds reply nothing while their registry entry
stays registered. -/
theorem popup_failure_reporting (env : Env) (msg : InMsg)
    (sender : Sender) (t : Nat)
    (ht : msg.tabId = some t) (htz : t ≠ 0) :
    (msg.type = "INIT_TOKEN_CREATE" →
      isValidForCoinCreateTrigger msg.options = true →
      msg.isSidebar = false → env.popupOk = false →
      (onMessage env msg sender).response =
        some { success := some false, reason := some "popup" }) ∧
    (msg.type = "TKNZ_TOKEN_CLICKED" → msg.token.address ≠ "" →
      msg.token.address ∉ env.blocklist.getD [] →
      msg.isSidebar = false → env.popupOk = false →
      (onMessage env msg sender).response =
        some { success := some false, reason := some "popup" }) ∧
    (msg.type = "CONNECT" ∨ msg.type = "SIGN_TRANSACTION" ∨
        msg.type = "SIGN_ALL_TRANSACTIONS" →
      onMessage { env with popupOk := false } msg sender =
        onMessage { env with popupOk := true } msg sender) ∧
    (msg.type = "SIGN_TRANSACTION" →
      (onMessage env msg sender).response = none ∧
      (onMessage env msg sender).newEntry =
        some { rid := mkRequestId env.now env.rand }) := by
  refine ⟨?_, ?_, ?_, ?_⟩
  · intro hty hv hside hp
    simp [onMessage, initTokenCreateHandler, ht, htz, hty, hv, hside, hp]
  · intro hty haddr hb hside hp
    simp [onMessage, tknzTokenClicked, tokenClickedProceed, ht, htz, hty,
      haddr, hb, hside, hp]
  · rintro (hty | hty | hty) <;>
      simp [onMessage, connectHandler, signTransactionHandler,
        signAllTransactionsHandler, ht, htz, hty]
  · intro hty
    constructor <;> simp [onMessage, signTransactionHandler, ht, htz, hty]

/-- Witness for C6 as amended: a concrete INIT_TOKEN_CREATE dispatch
with a failing popup reports reason popup, while CONNECT with a failing
popup behaves as with a working one. -/
theorem popup_failure_reporting_witness :
    ((onMessage { popupOk := false }
      { type := "INIT_TOKEN_CREATE", tabId := some 1,
        options := some { name := some "Foo" } } {}).response =
      some { success := some false, reason := some "popup" }) ∧
    (onMessage { popupOk := false }
      { type := "CONNECT", tabId := some 1 } {} =
      onMessage { popupOk := true }
        { type := "CONNECT", tabId := some 1 } {}) := by
  constructor
  · exact (popup_failure_reporting { popupOk := false }
      { type := "INIT_TOKEN_CREATE", tabId := some 1,
        options := some { name := some "Foo" } } {} 1
      rfl (by decide)).1 rfl rfl rfl rfl
  · exact (popup_failure_reporting { popupOk := false }
      { type := "CONNECT", tabId := some 1 } {} 1
      rfl (by decide)).2.2.1 (Or.inl rfl)

/-- Counterexample to C7: after a SIGN_TRANSACTION request from tab 1,
closing tab 1 removes only the content-script flag; the pending entry
is still registered, active and unanswered, so it was not rejected with
any context-closed outcome. -/
theorem tab_close_leaves_pending_counterexample :
    tabRemoved (applyDispatch { contentScriptStatus := [1] }
      (onMessage { now := 5, rand := 6 }
        { type := "SIGN_TRANSACTION", tabId := some 1 } {})) 1 =
      { contentScriptStatus := [],
        pending := [{ rid := mkRequestId 5 6 }] } ∧
    ({ rid := mkRequestId 5 6 } : PendingEntry).active = true ∧
    ({ rid := mkRequestId 5 6 } : PendingEntry).responses = [] := by
  refine ⟨?_, rfl, rfl⟩
  decide

/-- Claim C7 as amended: the tabs.onRemoved listener deletes only the
closed tab's content-script-ready flag; the pending request entries are
left completely untouched (they are never cancelled and leak), and the
flags of every other tab are preserved. -/
theorem tab_removed_only_clears_status (st : BrokerState) (t u : Nat)
    (hne : u ≠ t) :
    (tabRemoved st t).pending = st.pending ∧
    (tabRemoved st t).contentScriptStatus = st.contentScriptStatus.erase t ∧
    (u ∈ (tabRemoved st t).contentScriptStatus ↔
      u ∈ st.contentScriptStatus) := by
  refine ⟨rfl, rfl, ?_⟩
  simp [tabRemoved, List.mem_erase_of_ne hne]

/-- Witness for C7 as amended: closing tab 1 erases only its flag and
keeps both the pending entry and the flag of tab 2. -/
theorem tab_removed_only_clears_status_witness :
    (tabRemoved { contentScriptStatus := [1, 2],
                  pending := [{ rid := "req_5_6" }] } 1).pending =
      [{ rid := "req_5_6" }] ∧
    (tabRemoved { contentScriptStatus := [1, 2],
                  pending := [{ rid := "req_5_6" }] } 1).contentScriptStatus =
      [1, 2].erase 1 ∧
    (2 ∈ (tabRemoved { contentScriptStatus := [1, 2],
                       pending := [{ rid := "req_5_6" }] } 1).contentScriptStatus ↔
      2 ∈ [1, 2]) :=
  tab_removed_only_clears_status
    { contentScriptStatus := [1, 2], pending := [{ rid := "req_5_6" }] }
    1 2 (by decide)

end Tknz
